import Mathlib

/-!
Shallow embedding of the `runner` command-launcher: the per-entry
edit/commit/revert model of `runner.py` (`CmdWidget`, `RunnerApp`) and the
file-lifecycle state machine of `FileMenu.py` (`FileMenu`).

Python strings are modelled as `List Char`; `str.strip()` and
`str.rstrip("*")` become `pstrip` and `rstripStar`.  Tk calls that only draw
(grid, config of widget state, tooltip attachment) are dropped.  A read of an
absent dict key or of a `None` tooltip object (Python `KeyError` /
`AttributeError`) is modelled with `Option`, `none` standing for the raised
exception; likewise `IOError` from the file write is an explicit outcome.
-/

namespace Runner

/-- Python strings, modelled as lists of characters. -/
abbrev Str := List Char

/-- Coerce a Lean string literal to `Str`. -/
def toStr (s : String) : Str := s.data

/-- Drop the longest suffix of `s` all of whose characters satisfy `p`. -/
def dropTrail (p : Char → Bool) (s : Str) : Str := (s.reverse.dropWhile p).reverse

/-- Python `str.strip()`: remove leading and trailing whitespace. -/
def pstrip (s : Str) : Str := dropTrail Char.isWhitespace (s.dropWhile Char.isWhitespace)

/-- Python `str.rstrip("*")` as used by `CmdWidget`: remove trailing asterisks. -/
def rstripStar (s : Str) : Str := dropTrail (fun c => c == '*') s

/-- The trailing modification marker appended by `CmdWidget.updateButton`:
`"*" if isModified else ""`. -/
def starMark (m : Bool) : Str := if m then ['*'] else []


/-- One command record, the JSON object
`{ "button": ..., "cmd": ..., "tooltip": ... }`; the `tooltip` key is
optional in the file format. -/
structure CmdRec where
  button : Str
  cmd : Str
  tooltip : Option Str
deriving Repr, DecidableEq

/-- The state of one `CmdWidget` (runner.py, class `CmdWidget`): the backing
record `cmd` (the dict), the live `Entry` text `cmdText`, the button label
`buttonText` (which may carry a trailing `*` marker), the two `ToolTip`
holders (`None` until `setToolTip` runs), and the `disabled` / `added`
flags. -/
structure CmdWidget where
  cmd : CmdRec
  cmdText : Str
  buttonText : Str
  buttonTT : Option Str
  cmdTextTT : Option Str
  disabled : Bool
  added : Bool
deriving Repr, DecidableEq

/-- `CmdWidget.__init__` (runner.py:181-215): the entry text is filled with
`cmd["cmd"]`, the button label with `cmd["button"]`, `disabled = False`, and
the tooltip holders are set only when the record has a `"tooltip"` key. -/
def CmdWidget.init (c : CmdRec) (added : Bool) : CmdWidget :=
  { cmd := c
    cmdText := c.cmd
    buttonText := c.button
    buttonTT := c.tooltip
    cmdTextTT := c.tooltip
    disabled := false
    added := added }

/-- `CmdWidget.isModified` (runner.py:228-236), with Python's left-to-right
short-circuit evaluation of `or`: `none` models the `KeyError` raised by
`self.cmd["tooltip"]` when the record has no tooltip, or the
`AttributeError` from `self.buttonTT.text` / `self.cmdTextTT.text` when a
tooltip holder is `None`. -/
def isModified? (w : CmdWidget) : Option Bool :=
  if w.cmd.cmd ≠ pstrip w.cmdText then some true
  else if w.cmd.button ≠ pstrip (rstripStar w.buttonText) then some true
  else
    match w.cmd.tooltip with
    | none => none
    | some t =>
      match w.buttonTT with
      | none => none
      | some bt =>
        if t ≠ pstrip bt then some true
        else
          match w.cmdTextTT with
          | none => none
          | some ct =>
            if t ≠ pstrip ct then some true
            else some (w.disabled || w.added)

/-- `CmdWidget.updateButton` (runner.py:287-295): strips any trailing `*`
from the button label and re-appends one exactly when the widget is
modified.  (The `updateCB` hook it then fires is `RunnerApp.onUpdate`; the
app-level operations below invoke it explicitly.) -/
def updateButton (w : CmdWidget) : Option CmdWidget :=
  (isModified? w).map fun m =>
    { w with buttonText := rstripStar w.buttonText ++ starMark m }

/-- `CmdWidget.commit` (runner.py:238-249): copies the stripped live values
into the record, resets the entry text from the committed command, refreshes
both tooltip holders, clears `added`, and ends with `updateButton`.  Reading
`self.buttonTT.text` raises when the holder is `None` (modelled by
`none`). -/
def commitW (w : CmdWidget) : Option CmdWidget :=
  match w.buttonTT with
  | none => none
  | some bt =>
    updateButton
      { w with
        cmd := ⟨pstrip (rstripStar w.buttonText), pstrip w.cmdText, some (pstrip bt)⟩
        cmdText := pstrip w.cmdText
        buttonTT := some (pstrip bt)
        cmdTextTT := some (pstrip bt)
        added := false }

/-- `CmdWidget.revert` (runner.py:251-259): clears `disabled`, restores the
button label and entry text from the committed record, refreshes the tooltip
holders from `self.cmd["tooltip"]` (a `KeyError` when the key is absent),
and ends with `updateButton`.  Note it does not clear `added`. -/
def revertW (w : CmdWidget) : Option CmdWidget :=
  match w.cmd.tooltip with
  | none => none
  | some t =>
    updateButton
      { w with
        disabled := false
        buttonText := w.cmd.button
        cmdText := w.cmd.cmd
        buttonTT := some t
        cmdTextTT := some t }

/-- `CmdWidget.delete` (runner.py:261-271): toggles the `disabled` flag (the
menu entry reads `Delete` / `Undelete`) and ends with `updateButton`.  The
widget is never removed from any list. -/
def deleteW (w : CmdWidget) : Option CmdWidget :=
  updateButton { w with disabled := !w.disabled }

/-- The document-level state: `RunnerApp`'s `cmds`, `title`, `cmdWidth` and
`widgets` fields together with the `FileMenu` fields it delegates to
(`currFile`, `_isModified`).  In the source `self.cmds` holds the very dict
objects the widgets alias; here `cmds` is a value copy, and every operation
that reads the records of live widgets goes through `widgets` exactly as the
source does (`widgetCmds`). -/
structure RunnerApp where
  cmds : List CmdRec
  title : Str
  cmdWidth : Int
  widgets : List CmdWidget
  currFile : Option Str
  isModified : Bool
deriving Repr, DecidableEq

/-- `RunnerApp.__init__` / `FileMenu.__init__`: empty document, width 0, no
current file, not modified. -/
def RunnerApp.initial : RunnerApp :=
  { cmds := [], title := [], cmdWidth := 0, widgets := [], currFile := none
    isModified := false }

/-- The loop body of `RunnerApp.onUpdate` (runner.py:415-421): return `true`
at the first modified widget, `false` after scanning all; a crash in
`isModified` propagates. -/
def scanModified : List CmdWidget → Option Bool
  | [] => some false
  | w :: ws =>
    match isModified? w with
    | none => none
    | some true => some true
    | some false => scanModified ws

/-- `RunnerApp.onUpdate` (runner.py:415-421), the `refreshModified()` pass:
sets the document `isModified` flag from the scan over all widgets. -/
def onUpdate (st : RunnerApp) : Option RunnerApp :=
  (scanModified st.widgets).map fun b => { st with isModified := b }

/-- `RunnerApp.addWidget` (runner.py:484-491).  Note the source constructs
`CmdWidget(self.root, cmd, self.row, added=True)` unconditionally, so even
widgets built from a loaded file carry `added = True`. -/
def addWidget (st : RunnerApp) (c : CmdRec) : RunnerApp :=
  { st with widgets := st.widgets ++ [CmdWidget.init c true] }

/-- The parsed JSON document: either a bare array of command records or the
structured `{title, width, cmds}` object with every key optional. -/
inductive CmdData where
  | arr (cmds : List CmdRec)
  | obj (title : Option Str) (width : Option Int) (cmds : Option (List CmdRec))

/-- `RunnerApp.readCmds` (runner.py:372-384): the title first defaults to
the filename stem (`stem` here), then a structured object may override
title/cmds and, when the command-line width was not set (`cmdWidth <= 0`),
the width. -/
def readCmds (st : RunnerApp) (stem : Str) (data : CmdData) : RunnerApp :=
  let st0 := { st with title := stem }
  match data with
  | .arr cs => { st0 with cmds := cs }
  | .obj t? w? cs? =>
    let st1 := match t? with
      | some t => { st0 with title := t }
      | none => st0
    let st2 := match cs? with
      | some cs => { st1 with cmds := cs }
      | none => st1
    match w? with
    | some wv => if st2.cmdWidth ≤ 0 then { st2 with cmdWidth := wv } else st2
    | none => st2

/-- `RunnerApp.loadCmds` (runner.py:365-370): reset `cmds`, and when the
command file exists (`file = some (stem, data)` carries its name stem and
parsed contents) run `readCmds` and add one widget per record. -/
def loadCmds (st : RunnerApp) (file : Option (Str × CmdData)) : RunnerApp :=
  match file with
  | none => { st with cmds := [] }
  | some (stem, data) =>
    let st1 := readCmds { st with cmds := [] } stem data
    st1.cmds.foldl addWidget st1

/-- `RunnerApp.onAddButton` (runner.py:447-463) for a non-cancelled name
popup: build `{button: name, cmd: "", tooltip: name}`, append it, add the
widget, run its `updateButton` (whose `updateCB` hook is `onUpdate`), then
set `isModified = True`. -/
def onAddButton (st : RunnerApp) (name : Str) : Option RunnerApp :=
  let c : CmdRec := ⟨name, [], some name⟩
  let st1 := { st with cmds := st.cmds ++ [c] }
  match updateButton (CmdWidget.init c true) with
  | none => none
  | some w' =>
    match onUpdate { st1 with widgets := st1.widgets ++ [w'] } with
    | none => none
    | some st2 => some { st2 with isModified := true }

/-- `RunnerApp.widgetCmds` (runner.py:465-469): the records of all live
widgets, in order, with no filtering of any kind. -/
def widgetCmds (st : RunnerApp) : List CmdRec := st.widgets.map fun w => w.cmd

/-- The `for w in self.widgets: w.commit()` loop of `RunnerApp.saveToFile`
(runner.py:471-473), iterated over the given widget indices.  Each commit
ends in `updateButton`, whose `updateCB` hook runs `onUpdate` — so the
document flag is rescanned after every single commit. -/
def saveLoop (st : RunnerApp) : List Nat → Option RunnerApp
  | [] => some st
  | i :: rest =>
    match st.widgets[i]? with
    | none => none
    | some w =>
      match commitW w with
      | none => none
      | some w' =>
        match onUpdate { st with widgets := st.widgets.set i w' } with
        | none => none
        | some st' => saveLoop st' rest

/-- The serialized document `{"title": ..., "width": ..., "cmds": ...}`
built by `RunnerApp.saveToFile` (runner.py:475-479). -/
structure DocOut where
  title : Str
  width : Int
  cmds : List CmdRec
deriving Repr, DecidableEq

/-- Outcome of `RunnerApp.saveToFile` (runner.py:471-482): `ok` is the
Python `return True` with the document that was dumped, `ioerr` is an
`IOError` raised by `open`/`json.dump` — note it fires only after every
widget has already been committed — and `tkerr` is a crash inside a commit
(missing tooltip). -/
inductive SaveRes where
  | ok (st : RunnerApp) (doc : DocOut)
  | ioerr (st : RunnerApp)
  | tkerr
deriving Repr, DecidableEq

/-- `RunnerApp.saveToFile` (runner.py:471-482): commit every widget, then
write `{title, width, cmds: widgetCmds()}`; `writeOk` says whether the file
write succeeds. -/
def saveToFile (st : RunnerApp) (writeOk : Bool) : SaveRes :=
  match saveLoop st (List.range st.widgets.length) with
  | none => .tkerr
  | some st' =>
    if writeOk then .ok st' ⟨st'.title, st'.cmdWidth, widgetCmds st'⟩
    else .ioerr st'

/-- The loop body of `RunnerApp.onRevert` (runner.py:406-413): widgets with
`added` set get `delete()` (a disable toggle), the others get `revert()`;
each ends in `updateButton` whose hook runs `onUpdate`. -/
def revertLoop (st : RunnerApp) : List Nat → Option RunnerApp
  | [] => some st
  | i :: rest =>
    match st.widgets[i]? with
    | none => none
    | some w =>
      match (if w.added then deleteW w else revertW w) with
      | none => none
      | some w' =>
        match onUpdate { st with widgets := st.widgets.set i w' } with
        | none => none
        | some st' => revertLoop st' rest

/-- `RunnerApp.onRevert` (runner.py:406-413): run the delete/revert loop
over all widgets, then force `isModified = False`. -/
def onRevert (st : RunnerApp) : Option RunnerApp :=
  (revertLoop st (List.range st.widgets.length)).map fun st' =>
    { st' with isModified := false }

/-- Result of a `FileMenu` handler: `ret st b` is a normal return of `b`
with document state `st`, `exc st` is a propagating Python exception (e.g.
`IOError`) leaving state `st` behind, `tkerr` a crash from a missing
tooltip. -/
inductive FMRes where
  | ret (st : RunnerApp) (b : Bool)
  | exc (st : RunnerApp)
  | tkerr
deriving Repr, DecidableEq

/-- The user's answer to the Save/Discard/Cancel prompt
(`tkMessageBox.askyesnocancel`). -/
inductive Resp where
  | yes
  | no
  | cancel
deriving Repr, DecidableEq

/-- `FileMenu.onFileSaveAs` (FileMenu.py:116-128): `dialogPath` is the value
returned by the save dialog (`none` for cancelled/empty).  On a path, save;
on success set `currFile` and clear the modified flag. -/
def onFileSaveAs (st : RunnerApp) (writeOk : Bool) (dialogPath : Option Str) : FMRes :=
  match dialogPath with
  | none => .ret st false
  | some p =>
    match saveToFile st writeOk with
    | .ok st' _doc => .ret { st' with currFile := some p, isModified := false } true
    | .ioerr st' => .exc st'
    | .tkerr => .tkerr

/-- `FileMenu.onFileSave` (FileMenu.py:104-114): nothing to do when clean;
otherwise delegate to SaveAs when there is no current file, else save to it;
`setModified(False)` runs only after a successful save. -/
def onFileSave (st : RunnerApp) (writeOk : Bool) (dialogPath : Option Str) : FMRes :=
  if st.isModified then
    match st.currFile with
    | none =>
      match onFileSaveAs st writeOk dialogPath with
      | .ret st' false => .ret st' false
      | .ret st' true => .ret { st' with isModified := false } true
      | r => r
    | some _p =>
      match saveToFile st writeOk with
      | .ok st' _doc => .ret { st' with isModified := false } true
      | .ioerr st' => .exc st'
      | .tkerr => .tkerr
  else .ret st true

/-- `FileMenu.askSave` (FileMenu.py:59-69): Cancel returns `False`; on Yes
it calls `onFileSave()` and discards its result; Yes and No both fall
through to `return True`. -/
def askSave (st : RunnerApp) (resp : Resp) (writeOk : Bool) (dialogPath : Option Str) :
    FMRes :=
  match resp with
  | .cancel => .ret st false
  | .no => .ret st true
  | .yes =>
    match onFileSave st writeOk dialogPath with
    | .ret st' _b => .ret st' true
    | .exc st' => .exc st'
    | .tkerr => .tkerr

/-- `FileMenu.onFileNew` (FileMenu.py:71-79): gate on the modified flag via
`askSave`, then clear the modified flag and `currFile`.  Nothing ever
touches the widget list. -/
def onFileNew (st : RunnerApp) (resp : Resp) (writeOk : Bool) (dialogPath : Option Str) :
    FMRes :=
  if st.isModified then
    match askSave st resp writeOk dialogPath with
    | .ret st' true => .ret { st' with isModified := false, currFile := none } true
    | .ret st' false => .ret st' false
    | r => r
  else .ret { st with isModified := false, currFile := none } true

/-- `FileMenu.onExit` (FileMenu.py:154-159): when modified, the Save gate
decides whether the exit proceeds. -/
def onExit (st : RunnerApp) (resp : Resp) (writeOk : Bool) (dialogPath : Option Str) :
    FMRes :=
  if st.isModified then askSave st resp writeOk dialogPath else .ret st true

/-- One user edit event, as wired in the source: a keystroke in the command
`Entry` (rebinds through `updateButton`), the Delete/Undelete menu entry, or
the Add Button action. -/
inductive EditOp where
  | edit (i : Nat) (text : Str)
  | toggleDisable (i : Nat)
  | addEntry (name : Str)

/-- Apply one `EditOp` to the document.  Field edits and disable toggles end
in the widget's `updateButton`, whose `updateCB` hook runs `onUpdate`
(runner.py:287-295, 501). -/
def applyOp (st : RunnerApp) : EditOp → Option RunnerApp
  | .edit i text =>
    match st.widgets[i]? with
    | none => none
    | some w =>
      match updateButton { w with cmdText := text } with
      | none => none
      | some w' => onUpdate { st with widgets := st.widgets.set i w' }
  | .toggleDisable i =>
    match st.widgets[i]? with
    | none => none
    | some w =>
      match deleteW w with
      | none => none
      | some w' => onUpdate { st with widgets := st.widgets.set i w' }
  | .addEntry name => onAddButton st name

/-- Apply a sequence of edit operations left to right. -/
def applyOps (st : RunnerApp) : List EditOp → Option RunnerApp
  | [] => some st
  | op :: rest =>
    match applyOp st op with
    | none => none
    | some st' => applyOps st' rest

/-- State left behind by a `FileMenu` handler (for `tkerr` no state is
recorded; `RunnerApp.initial` is a placeholder). -/
def FMRes.stOf : FMRes → RunnerApp
  | .ret st _ => st
  | .exc st => st
  | .tkerr => RunnerApp.initial

/-- The boolean a `FileMenu` handler returned, `none` when it raised. -/
def FMRes.boolOf : FMRes → Option Bool
  | .ret _ b => some b
  | _ => none

/-- Whether a handler ended in a propagating exception. -/
def FMRes.isExc : FMRes → Bool
  | .exc _ => true
  | _ => false

/-- The document written by a save, `none` when nothing was written. -/
def SaveRes.docOf : SaveRes → Option DocOut
  | .ok _ d => some d
  | _ => none

/-- The in-memory state left by a save attempt. -/
def SaveRes.stOf : SaveRes → Option RunnerApp
  | .ok st _ => some st
  | .ioerr st => some st
  | .tkerr => none


/-! ### Concrete documents and states used by the claim theorems -/

/-- The spec's load scenario:
`{"title":"T","width":40,"cmds":[{"button":"A","cmd":"echo 1","tooltip":"t1"}]}`. -/
def sampleDoc : CmdData :=
  .obj (some (toStr "T")) (some 40)
    (some [⟨toStr "A", toStr "echo 1", some (toStr "t1")⟩])

/-- The document state right after loading `sampleDoc`. -/
def loadedApp : RunnerApp := loadCmds RunnerApp.initial (some (toStr "f", sampleDoc))

/-- Entry A of the save scenario, soft-deleted (`disabled = true`). -/
def wDisabledA : CmdWidget :=
  { CmdWidget.init ⟨toStr "A", toStr "a", some (toStr "ta")⟩ false with disabled := true }

/-- Entry B of the save scenario. -/
def wPlainB : CmdWidget := CmdWidget.init ⟨toStr "B", toStr "b", some (toStr "tb")⟩ false

/-- A dirty document holding disabled entry A and entry B. -/
def saveApp : RunnerApp :=
  { RunnerApp.initial with
    widgets := [wDisabledA, wPlainB]
    isModified := true
    title := toStr "T"
    cmdWidth := 40
    currFile := some (toStr "p.json") }

/-- The in-memory state after a successful save of `saveApp`. -/
def savedApp : RunnerApp := ((saveToFile saveApp true).stOf).getD RunnerApp.initial

/-- The document written by a successful save of `saveApp`. -/
def savedDoc : DocOut := ((saveToFile saveApp true).docOf).getD ⟨[], 0, []⟩

/-- A dirty document with one edited entry and no current file: the state in
which the New/Open/Exit gate offers to save and the SaveAs dialog can then
be cancelled. -/
def gateApp : RunnerApp :=
  { RunnerApp.initial with
    widgets :=
      [{ CmdWidget.init ⟨toStr "A", toStr "a", some (toStr "t")⟩ false with
          cmdText := toStr "b" }]
    isModified := true
    currFile := none }

/-- A freshly added (`added = true`) entry, as `onAddButton` builds it. -/
def newWidget : CmdWidget :=
  (updateButton (CmdWidget.init ⟨toStr "B", [], some (toStr "B")⟩ true)).getD
    (CmdWidget.init ⟨toStr "B", [], some (toStr "B")⟩ true)

/-- A dirty document whose only entry is the freshly added `newWidget`. -/
def addedApp : RunnerApp :=
  { RunnerApp.initial with widgets := [newWidget], isModified := true }

/-- A dirty one-entry document with a current file, used for the New gate. -/
def dirtyApp : RunnerApp :=
  { RunnerApp.initial with
    widgets := [wPlainB]
    isModified := true
    currFile := some (toStr "x.json") }

/-- The in-memory state after New's gate saves `dirtyApp` successfully. -/
def newSavedApp : RunnerApp := ((saveToFile dirtyApp true).stOf).getD RunnerApp.initial

/-- The document that save writes out of `dirtyApp`. -/
def newSavedDoc : DocOut := ((saveToFile dirtyApp true).docOf).getD ⟨[], 0, []⟩

/-- A dirty document with a current file whose write will fail. -/
def ioApp : RunnerApp :=
  { RunnerApp.initial with
    widgets :=
      [{ CmdWidget.init ⟨toStr "A", toStr "a", some (toStr "t")⟩ false with
          cmdText := toStr "b" }]
    isModified := true
    currFile := some (toStr "f.json") }

/-- An add-entry edit sequence for the invariant claim. -/
def addOps : List EditOp := [.addEntry (toStr "B")]

/-- `loadedApp` after applying `addOps`. -/
def editedApp : RunnerApp := (applyOps loadedApp addOps).getD RunnerApp.initial

/-- `editedApp` after one `refreshModified` (`onUpdate`) pass. -/
def refreshedApp : RunnerApp := (onUpdate editedApp).getD RunnerApp.initial

/-- A widget whose button label strips to `"A*"` — a committed label with a
trailing asterisk. -/
def starWidget : CmdWidget :=
  CmdWidget.init ⟨toStr "A* ", toStr "e", some (toStr "t")⟩ false

/-- A widget with ordinary, already-normalized values. -/
def plainWidget : CmdWidget :=
  CmdWidget.init ⟨toStr "A", toStr "echo", some (toStr "t")⟩ false

/-- `plainWidget` after one `commit()`. -/
def committedW : CmdWidget := (commitW plainWidget).getD plainWidget

/-- `plainWidget` after one `revert()`. -/
def revertedOnceW : CmdWidget := (revertW plainWidget).getD plainWidget

/-- `plainWidget` after `commit()` then `revert()`. -/
def commitRevertW : CmdWidget := (revertW committedW).getD plainWidget

/-- A record without a `"tooltip"` key whose `cmd` value is not
strip-normalized, so the first `isModified` disjunct short-circuits. -/
def noTooltipRec : CmdRec := ⟨toStr "A", toStr " x ", none⟩

/-- A record without a `"tooltip"` key whose values are strip-normalized. -/
def cleanNoTooltipRec : CmdRec := ⟨toStr "A", toStr "echo", none⟩

/-! ### String lemmas -/

theorem dropWhile_dropWhile (p : Char → Bool) (l : List Char) :
    (l.dropWhile p).dropWhile p = l.dropWhile p := by
  induction l with
  | nil => rfl
  | cons c t ih =>
    by_cases h : p c
    · simp [List.dropWhile_cons, h, ih]
    · simp [List.dropWhile_cons, h]

theorem dropTrail_idem (p : Char → Bool) (s : Str) :
    dropTrail p (dropTrail p s) = dropTrail p s := by
  unfold dropTrail
  rw [List.reverse_reverse, dropWhile_dropWhile]

theorem rstripStar_idem (s : Str) : rstripStar (rstripStar s) = rstripStar s :=
  dropTrail_idem _ s

theorem dropTrail_append_one (p : Char → Bool) (c : Char) (h : p c = true) (l : Str) :
    dropTrail p (l ++ [c]) = dropTrail p l := by
  unfold dropTrail
  rw [List.reverse_append]
  simp [List.dropWhile_cons, h]

theorem rstripStar_append_starMark (s : Str) (m : Bool) :
    rstripStar (rstripStar s ++ starMark m) = rstripStar s := by
  cases m with
  | false => simpa [starMark] using rstripStar_idem s
  | true =>
    have h : (('*' : Char) == '*') = true := rfl
    simpa [starMark] using
      (dropTrail_append_one (fun c => c == '*') '*' h (rstripStar s)).trans
        (rstripStar_idem s)

theorem dropWhile_append (p : Char → Bool) (l₁ l₂ : List Char) :
    (l₁ ++ l₂).dropWhile p =
      if (l₁.dropWhile p).isEmpty then l₂.dropWhile p else l₁.dropWhile p ++ l₂ := by
  induction l₁ with
  | nil => simp
  | cons a t ih =>
    by_cases h : p a
    · simp [List.dropWhile_cons, h, ih]
    · simp [List.dropWhile_cons, h]

theorem dropTrail_cons_of_not (p : Char → Bool) (c : Char) (t : Str) (h : p c = false) :
    ∃ u, dropTrail p (c :: t) = c :: u := by
  unfold dropTrail
  rw [show (c :: t).reverse = t.reverse ++ [c] by simp, dropWhile_append]
  by_cases he : (t.reverse.dropWhile p).isEmpty
  · rw [if_pos he]
    exact ⟨[], by simp [List.dropWhile_cons, h]⟩
  · rw [if_neg he]
    exact ⟨(t.reverse.dropWhile p).reverse, by simp⟩

theorem length_dropWhile_le (p : Char → Bool) (l : List Char) :
    (l.dropWhile p).length ≤ l.length := by
  induction l with
  | nil => simp
  | cons c t ih =>
    by_cases h : p c
    · simp only [List.dropWhile_cons, h, if_true]
      exact Nat.le_succ_of_le ih
    · simp [List.dropWhile_cons, h]

theorem dropWhile_dropTrail (p : Char → Bool) (l : Str) (h : l.dropWhile p = l) :
    (dropTrail p l).dropWhile p = dropTrail p l := by
  cases l with
  | nil => rfl
  | cons c t =>
    have hc : p c = false := by
      by_contra hpc
      have hpc' : p c = true := by
        cases hcv : p c
        · exact absurd hcv hpc
        · rfl
      have hlen := length_dropWhile_le p t
      rw [List.dropWhile_cons, if_pos hpc'] at h
      rw [h] at hlen
      simp at hlen
    obtain ⟨u, hu⟩ := dropTrail_cons_of_not p c t hc
    rw [hu]
    simp [List.dropWhile_cons, hc]

theorem pstrip_idem (s : Str) : pstrip (pstrip s) = pstrip s := by
  unfold pstrip
  rw [dropWhile_dropTrail _ _ (dropWhile_dropWhile _ s), dropTrail_idem]

/-! ### Helper lemmas about the document operations -/

theorem onUpdate_widgets {st st' : RunnerApp} (h : onUpdate st = some st') :
    st'.widgets = st.widgets := by
  obtain ⟨b, _hb, rfl⟩ := Option.map_eq_some'.mp h
  rfl

theorem saveLoop_length :
    ∀ (idxs : List Nat) (st st' : RunnerApp),
      saveLoop st idxs = some st' → st'.widgets.length = st.widgets.length := by
  intro idxs
  induction idxs with
  | nil =>
    intro st st' h
    unfold saveLoop at h
    injection h with h
    rw [h]
  | cons i rest ih =>
    intro st st' h
    unfold saveLoop at h
    cases hw : st.widgets[i]? with
    | none => rw [hw] at h; simp at h
    | some w =>
      rw [hw] at h
      dsimp only at h
      cases hc : commitW w with
      | none => rw [hc] at h; simp at h
      | some w' =>
        rw [hc] at h
        dsimp only at h
        cases hu : onUpdate { st with widgets := st.widgets.set i w' } with
        | none => rw [hu] at h; simp at h
        | some stm =>
          rw [hu] at h
          dsimp only at h
          rw [ih stm st' h, onUpdate_widgets hu]
          exact List.length_set st.widgets i w'

theorem foldl_addWidget_length :
    ∀ (cs : List CmdRec) (st : RunnerApp),
      (List.foldl addWidget st cs).widgets.length = st.widgets.length + cs.length := by
  intro cs
  induction cs with
  | nil => intro st; simp
  | cons c rest ih =>
    intro st
    rw [List.foldl_cons, ih]
    simp [addWidget]
    omega

theorem scanModified_eq :
    ∀ (ws : List CmdWidget) (b : Bool),
      scanModified ws = some b → b = ws.any fun w => (isModified? w).getD false := by
  intro ws
  induction ws with
  | nil =>
    intro b h
    unfold scanModified at h
    injection h with h
    simp [← h]
  | cons w ws ih =>
    intro b h
    unfold scanModified at h
    cases hm : isModified? w with
    | none => rw [hm] at h; simp at h
    | some bv =>
      rw [hm] at h
      cases bv with
      | false =>
        simp only at h
        rw [List.any_cons, ← ih b h, hm]
        simp
      | true =>
        simp only at h
        injection h with h
        rw [List.any_cons, ← h, hm]
        simp

theorem saveToFile_ok_length (st stc : RunnerApp) (doc : DocOut) (wk : Bool)
    (h : saveToFile st wk = SaveRes.ok stc doc) :
    stc.widgets.length = st.widgets.length := by
  unfold saveToFile at h
  cases hl : saveLoop st (List.range st.widgets.length) with
  | none => rw [hl] at h; simp at h
  | some stl =>
    rw [hl] at h
    cases wk with
    | false => simp at h
    | true =>
      simp only [if_true] at h
      injection h with h1 _h2
      rw [← h1]
      exact saveLoop_length _ _ _ hl

/-! ### Claim theorems -/

/-- C1: loading the well-formed document
`{"title":"T","width":40,"cmds":[{"button":"A","cmd":"echo 1","tooltip":"t1"}]}`
is claimed to yield one entry with `isNew = false`, `disabled = false`,
`isEntryModified() = false` and `isModified = false`.  In the code,
`RunnerApp.addWidget` constructs every widget with `added = True` — also for
entries read from a file — so the single loaded entry reports
`isEntryModified() = true` (the document flag itself stays false because
`loadCmds` never fires an update). -/
theorem C1_loaded_entries_marked_added :
    loadedApp.widgets.length = 1 ∧
    loadedApp.widgets.map (fun w => w.added) = [true] ∧
    loadedApp.widgets.map (fun w => w.disabled) = [false] ∧
    loadedApp.widgets.map isModified? = [some true] ∧
    loadedApp.isModified = false ∧
    loadedApp.title = toStr "T" ∧
    loadedApp.cmdWidth = 40 := by
  decide

/-- C3: with a dirty document and no current file, invoking New, answering
Save at the gate, and then cancelling the SaveAs dialog makes `askSave`
ignore the `False` returned by `onFileSave`: `onFileNew` proceeds, returns
`True`, and clears the modified flag — the unsaved changes are silently
discarded instead of the operation aborting with Dirty preserved. -/
theorem C3_new_proceeds_after_cancelled_save :
    gateApp.isModified = true ∧
    gateApp.currFile = none ∧
    onFileNew gateApp .yes true none =
      .ret { gateApp with isModified := false, currFile := none } true := by
  decide

/-- C4: `onRevert` on a document whose only entry is freshly added
(`added = true`) calls the entry's `delete()`, which merely toggles
`disabled`; the entry stays in the widget list with `added = true` and
`isEntryModified() = true`, while the document flag is forced to `false` —
the entry is not removed as the claim states. -/
theorem C4_revertAll_keeps_new_entry :
    (onRevert addedApp).map (fun s =>
        (s.widgets.length, s.widgets.map fun w => w.added,
          s.widgets.map fun w => w.disabled,
          s.widgets.map isModified?, s.isModified)) =
      some (1, [true], [true], [some true], false) := by
  rfl

/-- C7: when the Persistence Gateway write fails, `saveToFile` has already
committed every widget (each commit's `updateButton` hook reran `onUpdate`,
clearing the document flag), so the `IOError` escapes `onFileSave` with
`isModified = false`, `currFile` unchanged, and the committed record already
holding the live value `"b"` — not the atomic no-update the claim states. -/
theorem C7_failed_write_commits_and_clears_flag :
    (onFileSave ioApp false none).isExc = true ∧
    (onFileSave ioApp false none).stOf.isModified = false ∧
    (onFileSave ioApp false none).stOf.currFile = some (toStr "f.json") ∧
    (onFileSave ioApp false none).stOf.widgets.map (fun w => w.cmd.cmd) =
      [toStr "b"] := by
  decide

/-- C9: `readCmds` accepts both document forms — a bare array of entry
records and the structured `{title, width, cmds}` object — and the document
title defaults to the filename stem exactly when the `title` key is
absent. -/
theorem C9_loader_accepts_both_forms (st : RunnerApp) (stem t : Str)
    (wopt : Option Int) (cs : List CmdRec) :
    (readCmds st stem (.arr cs)).cmds = cs ∧
    (readCmds st stem (.arr cs)).title = stem ∧
    (readCmds st stem (.obj none wopt (some cs))).cmds = cs ∧
    (readCmds st stem (.obj none wopt (some cs))).title = stem ∧
    (readCmds st stem (.obj (some t) wopt (some cs))).title = t := by
  refine ⟨rfl, rfl, ?_, ?_, ?_⟩ <;>
    cases wopt with
    | none => rfl
    | some wv =>
      unfold readCmds
      dsimp only
      split <;> rfl

/-- C6: after `refreshModified()` (the code's `onUpdate`) runs — here at the
end of any sequence of edit / toggleDisable / addEntry operations — the
document-level `isModified` flag equals the logical OR over all entries of
`isEntryModified()`. -/
theorem C6_refresh_flag_is_or (ops : List EditOp) (st0 st st' : RunnerApp)
    (_hops : applyOps st0 ops = some st) (h : onUpdate st = some st') :
    st'.isModified = st.widgets.any fun w => (isModified? w).getD false := by
  obtain ⟨b, hb, rfl⟩ := Option.map_eq_some'.mp h
  exact scanModified_eq st.widgets b hb

/-- Witness for C6: the invariant instantiated after adding entry "B" to the
loaded sample document. -/
theorem C6_refresh_flag_is_or_witness :
    refreshedApp.isModified =
      editedApp.widgets.any fun w => (isModified? w).getD false :=
  C6_refresh_flag_is_or addOps loadedApp editedApp refreshedApp (by decide) (by decide)

/-- C2 counterexample: saving the document with disabled entry A and entry B
writes a `cmds` array containing both A and B — the disabled entry is not
excluded from the serialized output as the claim states. -/
theorem C2_disabled_entry_saved :
    ((saveToFile saveApp true).docOf).map (fun d => d.cmds.map fun c => c.button) =
      some [toStr "A", toStr "B"] ∧
    ((saveToFile saveApp true).docOf).map (fun d => d.cmds.length) = some 2 ∧
    saveApp.widgets.map (fun w => w.disabled) = [true, false] := by
  decide

/-- C5 counterexample: New on a dirty one-entry document, answered Discard,
proceeds (`True`) and clears `currFile` and the modified flag — but the
entry list is exactly as before, not cleared to an empty document. -/
theorem C5_entries_not_cleared :
    (onFileNew dirtyApp .no true none).stOf.widgets = dirtyApp.widgets ∧
    dirtyApp.widgets ≠ [] ∧
    (onFileNew dirtyApp .no true none).boolOf = some true ∧
    (onFileNew dirtyApp .no true none).stOf.currFile = none ∧
    (onFileNew dirtyApp .no true none).stOf.isModified = false := by
  decide

/-- C5 (amended): when the document is dirty, Cancel makes New a complete
no-op returning `False`; Discard proceeds, clearing only `currFile` and the
modified flag — the entry list is untouched; and Save that succeeds
(writing to the current file) likewise proceeds with `currFile` cleared and
the flag reset, leaving the entries committed in place — the same number of
entries remains, none are cleared. -/
theorem C5_new_keeps_entries (st : RunnerApp) (writeOk : Bool)
    (dialogPath : Option Str) (h : st.isModified = true) :
    onFileNew st .cancel writeOk dialogPath = .ret st false ∧
    onFileNew st .no writeOk dialogPath =
      .ret { st with isModified := false, currFile := none } true ∧
    ∀ (p : Str) (stc : RunnerApp) (doc : DocOut),
      st.currFile = some p → saveToFile st true = SaveRes.ok stc doc →
        onFileNew st .yes true dialogPath =
          .ret { stc with isModified := false, currFile := none } true ∧
        stc.widgets.length = st.widgets.length := by
  refine ⟨by simp [onFileNew, askSave, h], by simp [onFileNew, askSave, h], ?_⟩
  intro p stc doc hp hsave
  constructor
  · simp [onFileNew, askSave, onFileSave, h, hp, hsave]
  · exact saveToFile_ok_length st stc doc true hsave

/-- Witness for C5: the amended New behaviour — Cancel, Discard, and
successful Save — at the concrete dirty document. -/
theorem C5_new_keeps_entries_witness :
    onFileNew dirtyApp .cancel true none = .ret dirtyApp false ∧
    onFileNew dirtyApp .no true none =
      .ret { dirtyApp with isModified := false, currFile := none } true ∧
    (onFileNew dirtyApp .yes true none =
      .ret { newSavedApp with isModified := false, currFile := none } true ∧
      newSavedApp.widgets.length = dirtyApp.widgets.length) := by
  have h := C5_new_keeps_entries dirtyApp true none (by decide)
  exact ⟨h.1, h.2.1,
    h.2.2 (toStr "x.json") newSavedApp newSavedDoc (by decide) (by decide)⟩

/-- C8 counterexample: for an entry whose button label strips to `"A*"`,
`commit()` followed immediately by `revert()` leaves
`isEntryModified() = true` — the claimed no-op fails, because `updateButton`
strips the label's own trailing asterisk as if it were the modification
marker. -/
theorem C8_commit_revert_leaves_modified :
    Option.bind (Option.bind (commitW starWidget) revertW) isModified? =
      some true := by
  decide

/-- C10 counterexample: an entry built from a record without a `"tooltip"`
key whose stored command is not strip-normalized: `isModified` returns
`True` via its first short-circuit disjunct without ever dereferencing the
null tooltip holders — the claim that every such entry's check dereferences
them is false. -/
theorem C10_short_circuit_no_deref :
    (CmdWidget.init noTooltipRec true).buttonTT = none ∧
    isModified? (CmdWidget.init noTooltipRec true) = some true := by
  decide

/-- C10 (amended): an entry built from a record without a `"tooltip"` key
has both tooltip holders null, and whenever the command and label disjuncts
do not short-circuit (e.g. for strip-normalized stored values)
`isEntryModified()` dereferences the null holders — the check is total only
when every entry carries a tooltip. -/
theorem C10_tooltip_partiality (c : CmdRec) (a : Bool) (h : c.tooltip = none) :
    (CmdWidget.init c a).buttonTT = none ∧
    (CmdWidget.init c a).cmdTextTT = none ∧
    (c.cmd = pstrip c.cmd → c.button = pstrip (rstripStar c.button) →
      isModified? (CmdWidget.init c a) = none) := by
  refine ⟨by simp [CmdWidget.init, h], by simp [CmdWidget.init, h], ?_⟩
  intro h1 h2
  unfold isModified? CmdWidget.init
  simp [h, ← h1, ← h2]

/-- Witness for C10: the partiality at a concrete normalized record without
a tooltip. -/
theorem C10_tooltip_partiality_witness :
    (CmdWidget.init cleanNoTooltipRec true).buttonTT = none ∧
    (CmdWidget.init cleanNoTooltipRec true).cmdTextTT = none ∧
    isModified? (CmdWidget.init cleanNoTooltipRec true) = none := by
  have h := C10_tooltip_partiality cleanNoTooltipRec true (by decide)
  exact ⟨h.1, h.2.1, h.2.2 (by decide) (by decide)⟩

/-- Evaluating `commitW` when the tooltip holder is present: the committed
record takes the stripped live values, the entry text is reset, `added` is
cleared, and `updateButton` re-renders the label with the marker exactly
when the widget was disabled. -/
theorem commitW_eq (w : CmdWidget) (bt : Str) (h : w.buttonTT = some bt) :
    commitW w = some
      { cmd := ⟨pstrip (rstripStar w.buttonText), pstrip w.cmdText, some (pstrip bt)⟩
        cmdText := pstrip w.cmdText
        buttonText := rstripStar w.buttonText ++ starMark w.disabled
        buttonTT := some (pstrip bt)
        cmdTextTT := some (pstrip bt)
        disabled := w.disabled
        added := false } := by
  unfold commitW
  rw [h]
  unfold updateButton isModified?
  simp [pstrip_idem]

/-- A second `commit()` with no intervening edits is a no-op. -/
theorem commitW_idem (w w1 : CmdWidget) (h : commitW w = some w1) :
    commitW w1 = some w1 := by
  cases hbt : w.buttonTT with
  | none => unfold commitW at h; rw [hbt] at h; simp at h
  | some bt =>
    have hcw := commitW_eq w bt hbt
    rw [h] at hcw
    injection hcw with hcw
    subst hcw
    rw [commitW_eq _ (pstrip bt) rfl]
    simp only [Option.some.injEq]
    have hbtn :
        rstripStar (rstripStar w.buttonText ++ starMark w.disabled) =
          rstripStar w.buttonText := rstripStar_append_starMark _ _
    simp [CmdWidget.mk.injEq, CmdRec.mk.injEq, hbtn, pstrip_idem]

/-- A second `revert()` with no intervening edits is a no-op. -/
theorem revertW_idem (w w1 : CmdWidget) (h : revertW w = some w1) :
    revertW w1 = some w1 := by
  cases ht : w.cmd.tooltip with
  | none => unfold revertW at h; rw [ht] at h; simp at h
  | some t =>
    unfold revertW at h
    rw [ht] at h
    unfold updateButton at h
    obtain ⟨m, hm, hw1⟩ := Option.map_eq_some'.mp h
    subst hw1
    unfold revertW
    dsimp only
    rw [ht]
    unfold updateButton
    dsimp only
    rw [hm]
    rfl

/-- Evaluating `revertW` when the record has a tooltip: live fields are
restored from the committed record and `updateButton` re-renders the label,
appending the marker exactly when the committed values are not
strip-normalized or the entry is still `added`. -/
theorem revertW_eq (w : CmdWidget) (t : Str) (h : w.cmd.tooltip = some t) :
    revertW w = some
      { cmd := w.cmd
        cmdText := w.cmd.cmd
        buttonText := rstripStar w.cmd.button ++
          starMark (decide (w.cmd.cmd ≠ pstrip w.cmd.cmd) ||
            (decide (w.cmd.button ≠ pstrip (rstripStar w.cmd.button)) ||
              (decide (t ≠ pstrip t) || w.added)))
        buttonTT := some t
        cmdTextTT := some t
        disabled := false
        added := w.added } := by
  unfold revertW
  rw [h]
  unfold updateButton isModified?
  dsimp only
  rw [h]
  dsimp only
  by_cases h1 : w.cmd.cmd = pstrip w.cmd.cmd
  · rw [if_neg (not_not_intro h1)]
    by_cases h2 : w.cmd.button = pstrip (rstripStar w.cmd.button)
    · rw [if_neg (not_not_intro h2)]
      by_cases h3 : t = pstrip t
      · rw [if_neg (not_not_intro h3), if_neg (not_not_intro h3)]
        simp [decide_eq_true h1, decide_eq_true h2, decide_eq_true h3]
      · rw [if_pos h3]
        simp [decide_eq_false h3, decide_eq_true h1, decide_eq_true h2]
    · rw [if_pos h2]
      simp [decide_eq_false h2, decide_eq_true h1]
  · rw [if_pos h1]
    simp [decide_eq_false h1]

/-- After `commit()` then `revert()` with no intervening edits, the
committed record and entry text are unchanged, and `isEntryModified()` is
false provided the committed button label survives `rstrip("*").strip()`
(i.e. has no trailing asterisk of its own). -/
theorem commit_then_revert (w w1 w2 : CmdWidget) (hc : commitW w = some w1)
    (hr : revertW w1 = some w2) :
    w2.cmd = w1.cmd ∧ w2.cmdText = w1.cmdText ∧
      (pstrip (rstripStar w1.cmd.button) = w1.cmd.button →
        isModified? w2 = some false) := by
  cases hbt : w.buttonTT with
  | none => unfold commitW at hc; rw [hbt] at hc; simp at hc
  | some bt =>
    have hcw := commitW_eq w bt hbt
    rw [hc] at hcw
    injection hcw with hcw
    subst hcw
    rw [revertW_eq _ (pstrip bt) rfl] at hr
    injection hr with hr
    subst hr
    refine ⟨rfl, rfl, ?_⟩
    intro hstar
    dsimp only at hstar ⊢
    unfold isModified?
    simp [pstrip_idem, rstripStar_idem, starMark, hstar]

/-- C8 (amended): `commit()` and `revert()` are idempotent, and `commit()`
immediately followed by `revert()` leaves the committed record and the
entry text unchanged with `isEntryModified() = false` — the latter under the
proviso that the committed button label has no trailing asterisk (the
modification-marker stripping in `updateButton` breaks the no-op for labels
ending in `*`). -/
theorem C8_idempotence_and_commit_revert (w w1 : CmdWidget) :
    (commitW w = some w1 → commitW w1 = some w1) ∧
    (revertW w = some w1 → revertW w1 = some w1) ∧
    (∀ w2, commitW w = some w1 → revertW w1 = some w2 →
      w2.cmd = w1.cmd ∧ w2.cmdText = w1.cmdText ∧
        (pstrip (rstripStar w1.cmd.button) = w1.cmd.button →
          isModified? w2 = some false)) :=
  ⟨commitW_idem w w1, revertW_idem w w1,
    fun w2 hc hr => commit_then_revert w w1 w2 hc hr⟩

/-- Witness for C8: idempotence and the commit-revert no-op at a concrete
entry with a plain label. -/
theorem C8_idempotence_and_commit_revert_witness :
    commitW committedW = some committedW ∧
    revertW revertedOnceW = some revertedOnceW ∧
    (commitRevertW.cmd = committedW.cmd ∧
      commitRevertW.cmdText = committedW.cmdText ∧
      isModified? commitRevertW = some false) := by
  refine ⟨(C8_idempotence_and_commit_revert plainWidget committedW).1 (by decide),
    (C8_idempotence_and_commit_revert plainWidget revertedOnceW).2.1 (by decide), ?_⟩
  have h := (C8_idempotence_and_commit_revert plainWidget committedW).2.2
    commitRevertW (by decide) (by decide)
  exact ⟨h.1, h.2.1, h.2.2 (by decide)⟩

/-- C2 (amended): a successful save serializes the record of every live
widget — disabled or not — into `cmds`, keeps every widget in memory, and
reloading the written document yields exactly as many entries as there were
widgets. -/
theorem C2_save_includes_all_entries (st st' : RunnerApp) (doc : DocOut)
    (h : saveToFile st true = SaveRes.ok st' doc) :
    doc.cmds = st'.widgets.map (fun w => w.cmd) ∧
    doc.cmds.length = st.widgets.length ∧
    st'.widgets.length = st.widgets.length ∧
    ∀ stem : Str,
      (loadCmds RunnerApp.initial
          (some (stem, CmdData.obj (some doc.title) (some doc.width)
            (some doc.cmds)))).widgets.length = st.widgets.length := by
  unfold saveToFile at h
  cases hl : saveLoop st (List.range st.widgets.length) with
  | none => rw [hl] at h; simp at h
  | some stc =>
    rw [hl] at h
    simp only [if_true] at h
    injection h with h1 h2
    subst h1
    subst h2
    have hlen := saveLoop_length _ _ _ hl
    refine ⟨rfl, ?_, hlen, ?_⟩
    · simpa [widgetCmds] using hlen
    · intro stem
      have hload :
          (loadCmds RunnerApp.initial
              (some (stem, CmdData.obj (some stc.title) (some stc.cmdWidth)
                (some (widgetCmds stc))))).widgets.length =
            (widgetCmds stc).length := by
        unfold loadCmds readCmds
        dsimp only
        rw [foldl_addWidget_length]
        simp [RunnerApp.initial]
      dsimp only
      rw [hload]
      simpa [widgetCmds] using hlen

/-- Witness for C2: the amended save behaviour at the concrete document
with disabled entry A and entry B. -/
theorem C2_save_includes_all_entries_witness :
    savedDoc.cmds = savedApp.widgets.map (fun w => w.cmd) ∧
    savedDoc.cmds.length = saveApp.widgets.length ∧
    savedApp.widgets.length = saveApp.widgets.length ∧
    ∀ stem : Str,
      (loadCmds RunnerApp.initial
          (some (stem, CmdData.obj (some savedDoc.title) (some savedDoc.width)
            (some savedDoc.cmds)))).widgets.length = saveApp.widgets.length :=
  C2_save_includes_all_entries saveApp savedApp savedDoc (by decide)

end Runner
